import Mathlib

/-!
Shallow embedding of the coordinate-resolution engine of ProbeGenerator
(`probe_generator/exon_coordinate.py` and `probe_generator/gene_snp_probe.py`),
with theorems checking the natural-language specification against the code.

Python dictionaries with possibly-missing keys become structures with
`Option` fields; exceptions become `Except`; the diagnostic stream
(`print(..., file=sys.stderr)`) becomes an explicit list of emitted
diagnostics returned alongside the result.
-/

namespace ProbeGen

/-- Errors of `exon_coordinate.py`: `InterfaceError` (raised when an object
from another module does not provide the expected interface) and
`NoFeatureError`, whose message carries the requested feature number and the
actual number of features
(`"specification requires feature 'exon'[{number}], but row specifies only
{length} 'exon'(s)"`). -/
inductive SeqRangeError where
  | interfaceError : SeqRangeError
  | noFeatureError (number : Int) (length : Nat) : SeqRangeError
deriving DecidableEq, Repr

/-- The `bases` field of one side of a specification: either the glob `'*'`
or a number. -/
inductive Bases where
  | star : Bases
  | num (n : Int) : Bases
deriving DecidableEq, Repr

/-- Modelled from the spec: a UCSC annotation row as the resolver consumes it
(§6 of the spec): a chromosome name (`row['chrom']`), a strand
(`row['strand']`), and the exon list `annotation.exons(row)` in transcription
order, each exon a half-open-left `(start, end]` pair. The `annotation`
module itself is not under `src/`. -/
structure Row where
  chrom : String
  strand : String
  exons : List (Int × Int)
deriving DecidableEq, Repr

/-- A probe specification as a Python dict: each key the resolver reads may be
present or absent.  A feature reference is a `(kind, index)` pair. -/
structure Spec where
  separator : Option String
  gene1 : Option String
  gene2 : Option String
  feature1 : Option (String × Int)
  feature2 : Option (String × Int)
  side1 : Option String
  side2 : Option String
  bases1 : Option Bases
  bases2 : Option Bases
deriving DecidableEq, Repr

/-- The coordinate record produced by resolution (field names from the
source's returned dict). -/
structure Coord where
  chromosome1 : String
  start1 : Int
  end1 : Int
  chromosome2 : String
  start2 : Int
  end2 : Int
  rc_side_1 : Bool
  rc_side_2 : Bool
deriving DecidableEq, Repr

/-- Diagnostics printed to `sys.stderr` by the resolver: the module-level
`WARNING_MESSAGE` about `'->'` probes whose sides are not (end, start). -/
inductive Diagnostic where
  | readThroughSideWarning : Diagnostic
deriving DecidableEq, Repr

/-- `_is_leftmost_side(side, strand)`: `(side == 'start') == (strand == '+')`. -/
def _is_leftmost_side (side strand : String) : Bool :=
  (side == "start") == (strand == "+")

/-- `_get_base_pair_range(bases, start, end, side, strand)`: the sub-range of
the feature anchored at the requested side. -/
def _get_base_pair_range (bases start stop : Int) (side strand : String) :
    Int × Int :=
  if _is_leftmost_side side strand then (start + 1, start + bases)
  else (stop - bases + 1, stop)

/-- Python list indexing `l[i]` for `i : Int`: non-negative indices from the
front, negative indices from the back, `none` for `IndexError`. -/
def pyGet (l : List (Int × Int)) (i : Int) : Option (Int × Int) :=
  if 0 ≤ i then l[i.toNat]?
  else if 0 ≤ (l.length : Int) + i then l[((l.length : Int) + i).toNat]?
  else none

/-- `_get_exon(positions, index)`: `positions[index-1]`, with `IndexError`
turned into `NoFeatureError` carrying the requested index and the length. -/
def _get_exon (positions : List (Int × Int)) (index : Int) :
    Except SeqRangeError (Int × Int) :=
  match pyGet positions (index - 1) with
  | some p => .ok p
  | none => .error (.noFeatureError index positions.length)

/-- `_get_base_position_per_row(feature, bases, side, row)`: the start and end
positions of one side of a probe. -/
def _get_base_position_per_row (feature : String × Int) (bases : Bases)
    (side : String) (row : Row) : Except SeqRangeError (Int × Int) :=
  let which_exon := feature.2
  let strand := row.strand
  let exon_positions := row.exons
  match _get_exon exon_positions which_exon with
  | .error e => .error e
  | .ok (exon_start, exon_end) =>
    match bases with
    | .star => .ok (exon_start, exon_end)
    | .num b => .ok (_get_base_pair_range b exon_start exon_end side strand)

/-- `_get_base_positions(specification, row_1, row_2)`: the 4-tuple of start
and end positions of both rows; a missing key is `InterfaceError`. -/
def _get_base_positions (s : Spec) (row_1 row_2 : Row) :
    Except SeqRangeError (Int × Int × Int × Int) :=
  match s.feature1, s.bases1, s.side1, s.feature2, s.bases2, s.side2 with
  | some f1, some b1, some sd1, some f2, some b2, some sd2 =>
    match _get_base_position_per_row f1 b1 sd1 row_1 with
    | .error e => .error e
    | .ok (start_1, end_1) =>
      match _get_base_position_per_row f2 b2 sd2 row_2 with
      | .error e => .error e
      | .ok (start_2, end_2) => .ok (start_1, end_1, start_2, end_2)
  | _, _, _, _, _, _ => .error .interfaceError

/-- Python `'chr'.lstrip` semantics: `s.lstrip('chr')` removes *all* leading
characters belonging to the set `{c, h, r}`, not the literal prefix. -/
def lstripChr (s : String) : String :=
  String.mk (s.toList.dropWhile (fun c => c == 'c' || c == 'h' || c == 'r'))

/-- `_get_chromosomes(row_1, row_2)`: the chromosomes of the rows after
`row['chrom'].lstrip('chr')`. -/
def _get_chromosomes (row_1 row_2 : Row) : String × String :=
  (lstripChr row_1.chrom, lstripChr row_2.chrom)

/-- `_get_rev_comp_flags(specification, row_1, row_2)`: whether each set of
base pairs is to be reverse-complemented; `none` models the uncaught
`KeyError` on a side-less specification (unreachable in the resolver, which
validates the keys first). -/
def _get_rev_comp_flags (s : Spec) (row_1 row_2 : Row) :
    Option (Bool × Bool) :=
  match s.side1, s.side2 with
  | some side1, some side2 =>
    some ((side1 == "start" && row_1.strand == "+") ||
            (side1 == "end" && row_1.strand == "-"),
          (side2 == "start" && row_2.strand == "-") ||
            (side2 == "end" && row_2.strand == "+"))
  | _, _ => none

/-- `_positional_sequence_range(specification, row_1, row_2)`: resolve each
side independently against its own row. -/
def _positional_sequence_range (s : Spec) (row_1 row_2 : Row) :
    Except SeqRangeError Coord :=
  let (left_chromosome, right_chromosome) := _get_chromosomes row_1 row_2
  match _get_base_positions s row_1 row_2 with
  | .error e => .error e
  | .ok (left_start, left_end, right_start, right_end) =>
    match _get_rev_comp_flags s row_1 row_2 with
    | some (rc_left, rc_right) =>
      .ok { chromosome1 := left_chromosome
            start1 := left_start
            end1 := left_end
            chromosome2 := right_chromosome
            start2 := right_start
            end2 := right_end
            rc_side_1 := rc_left
            rc_side_2 := rc_right }
    | none => .error .interfaceError

/-- `_flip_specification(specification)`: the specification with every field
ending in '1' exchanged with the corresponding field ending in '2';
a missing key (`KeyError`) becomes `InterfaceError`. -/
def _flip_specification (s : Spec) : Except SeqRangeError Spec :=
  match s.gene1, s.gene2, s.feature1, s.feature2, s.side1, s.side2,
      s.bases1, s.bases2 with
  | some g1, some g2, some f1, some f2, some sd1, some sd2, some b1, some b2 =>
    .ok { s with gene1 := some g2, gene2 := some g1,
                 feature1 := some f2, feature2 := some f1,
                 side1 := some sd2, side2 := some sd1,
                 bases1 := some b2, bases2 := some b1 }
  | _, _, _, _, _, _, _, _ => .error .interfaceError

/-- `_check_read_through_spec(specification)`: `InterfaceError` if a side key
is missing; otherwise the (possibly empty) list of warnings printed to the
diagnostic stream. -/
def _check_read_through_spec (s : Spec) :
    Except SeqRangeError (List Diagnostic) :=
  match s.side1, s.side2 with
  | some sd1, some sd2 =>
    .ok (if sd1 == "end" && sd2 == "start" then []
         else [.readThroughSideWarning])
  | _, _ => .error .interfaceError

/-- Lines 78-89 of `_read_through_sequence_range`: the strand dispatch that
follows `_check_read_through_spec`. -/
def _read_through_dispatch (s : Spec) (row_1 row_2 : Row) :
    Except SeqRangeError Coord :=
  if row_1.strand == "+" then _positional_sequence_range s row_1 row_2
  else if row_1.strand == "-" then
    match _flip_specification s with
    | .ok s2 => _positional_sequence_range s2 row_2 row_1
    | .error e => .error e
  else .error .interfaceError

/-- `_read_through_sequence_range(specification, row_1, row_2)`: check the
sides (collecting the emitted warnings), then dispatch on row 1's strand. -/
def _read_through_sequence_range (s : Spec) (row_1 row_2 : Row) :
    List Diagnostic × Except SeqRangeError Coord :=
  match _check_read_through_spec s with
  | .error e => ([], .error e)
  | .ok warnings => (warnings, _read_through_dispatch s row_1 row_2)

/-- `sequence_range(specification, row_1, row_2)`: strategy selection on the
`separator` key. -/
def sequence_range (s : Spec) (row_1 row_2 : Row) :
    List Diagnostic × Except SeqRangeError Coord :=
  match s.separator with
  | some "/" => ([], _positional_sequence_range s row_1 row_2)
  | some "->" => _read_through_sequence_range s row_1 row_2
  | _ => ([], .error .interfaceError)

/-- All eight side fields a flip requires are present. -/
def hasFlipFields (s : Spec) : Bool :=
  s.gene1.isSome && s.gene2.isSome && s.feature1.isSome &&
    s.feature2.isSome && s.side1.isSome && s.side2.isSome &&
    s.bases1.isSome && s.bases2.isSome

/-- C1: for a numeric `bases` value `b`, a feature resolving to exon interval
`(es, ee)`, a `side` and a strand: the requested side is the chromosomally
leftmost edge iff `(side == start) == (strand == '+')`; if leftmost the
resolver returns `(es + 1, es + b)`, and otherwise `(ee - b + 1, ee)`. -/
theorem numeric_bases_range_anchored_at_requested_edge
    (kind : String) (idx : Int) (b : Int) (side : String) (row : Row)
    (es ee : Int) (h : _get_exon row.exons idx = .ok (es, ee)) :
    (_is_leftmost_side side row.strand = true ↔
      ((side = "start") ↔ (row.strand = "+"))) ∧
    (_is_leftmost_side side row.strand = true →
      _get_base_position_per_row (kind, idx) (.num b) side row =
        .ok (es + 1, es + b)) ∧
    (_is_leftmost_side side row.strand = false →
      _get_base_position_per_row (kind, idx) (.num b) side row =
        .ok (ee - b + 1, ee)) := by
  refine ⟨?_, ?_, ?_⟩
  · simp [_is_leftmost_side]
  · intro hl
    simp [_get_base_position_per_row, h, _get_base_pair_range, hl]
  · intro hl
    simp [_get_base_position_per_row, h, _get_base_pair_range, hl]

/-- Witness for C1 at a concrete input: a plus-strand row with exon
`(0, 100)`, `side = start`, `bases = 20` yields range `(1, 20)`. -/
theorem numeric_bases_range_anchored_at_requested_edge_witness :
    _get_base_position_per_row ("exon", 1) (.num 20) "start"
        { chrom := "chr1", strand := "+", exons := [(0, 100)] } =
      .ok (0 + 1, 0 + 20) :=
  (numeric_bases_range_anchored_at_requested_edge "exon" 1 20 "start"
      { chrom := "chr1", strand := "+", exons := [(0, 100)] } 0 100
      rfl).2.1 (by decide)

/-- C4: for a wildcard `bases` field, the resolver returns the exon's stored
interval `(exon_start, exon_end)` unchanged, with no `+1` adjustment. -/
theorem wildcard_bases_returns_exon_interval_unchanged
    (kind : String) (idx : Int) (side : String) (row : Row) (es ee : Int)
    (h : _get_exon row.exons idx = .ok (es, ee)) :
    _get_base_position_per_row (kind, idx) .star side row = .ok (es, ee) := by
  simp [_get_base_position_per_row, h]

/-- Witness for C4 at a concrete input: exon `(0, 100)` with `bases = *`
yields `(0, 100)`, not `(1, 100)`. -/
theorem wildcard_bases_returns_exon_interval_unchanged_witness :
    _get_base_position_per_row ("exon", 1) .star "start"
        { chrom := "chr1", strand := "+", exons := [(0, 100)] } =
      .ok (0, 100) :=
  wildcard_bases_returns_exon_interval_unchanged "exon" 1 "start"
    { chrom := "chr1", strand := "+", exons := [(0, 100)] } 0 100 rfl

/-- C5: requesting feature index `n` on a row with `k` exons and `n > k`
fails with `NoFeatureError` carrying the requested index `n` and the actual
count `k`. -/
theorem out_of_range_feature_raises_no_feature_error
    (positions : List (Int × Int)) (n : Int)
    (h : (positions.length : Int) < n) :
    _get_exon positions n = .error (.noFeatureError n positions.length) := by
  unfold _get_exon pyGet
  rw [if_pos (by omega : (0 : Int) ≤ n - 1)]
  rw [List.getElem?_eq_none (by omega : positions.length ≤ (n - 1).toNat)]

/-- Witness for C5 at a concrete input: exon 3 on a 2-exon row reports
number 3 and length 2. -/
theorem out_of_range_feature_raises_no_feature_error_witness :
    _get_exon [(0, 100), (200, 300)] 3 = .error (.noFeatureError 3 2) :=
  out_of_range_feature_raises_no_feature_error [(0, 100), (200, 300)] 3
    (by decide)

/-- C9 counterexample: on a 2-exon row, index `-2` (so `index - 1 = -3`, not
at or past the list length `2`) still raises `NoFeatureError`, refuting the
claim that the error is raised only when `index - 1` is at or past the list
length. -/
theorem get_exon_negative_out_of_range_still_errors :
    _get_exon [(0, 100), (200, 300)] (-2) =
        .error (.noFeatureError (-2) 2) ∧
      ((-2 : Int) - 1 < 2) := by
  constructor
  · rfl
  · decide

/-- C9 (amended): requesting feature index 0 on a non-empty exon list does
not raise `NoFeatureError` but returns the last exon, and `NoFeatureError`
is raised exactly when `index - 1` lies outside `[-length, length)`, the
range Python indexing accepts. -/
theorem get_exon_python_indexing (positions : List (Int × Int))
    (index : Int) :
    (∀ p, positions.getLast? = some p → _get_exon positions 0 = .ok p) ∧
    (_get_exon positions index =
        .error (.noFeatureError index positions.length) ↔
      ((positions.length : Int) ≤ index - 1 ∨
        index - 1 < -(positions.length : Int))) := by
  constructor
  · intro p hp
    have hne : positions ≠ [] := by
      intro hnil
      rw [hnil] at hp
      simp [List.getLast?] at hp
    have hlen : 1 ≤ positions.length := by
      cases positions with
      | nil => exact absurd rfl hne
      | cons a t => simp
    unfold _get_exon pyGet
    rw [if_neg (by omega : ¬ (0 : Int) ≤ 0 - 1)]
    rw [if_pos (by omega : (0 : Int) ≤ (positions.length : Int) + (0 - 1))]
    have harg : (((positions.length : Int) + (0 - 1)).toNat) =
        positions.length - 1 := by omega
    rw [harg]
    rw [List.getLast?_eq_getElem?] at hp
    rw [hp]
  · unfold _get_exon pyGet
    by_cases h0 : (0 : Int) ≤ index - 1
    · rw [if_pos h0]
      by_cases hlt : (index - 1).toNat < positions.length
      · rw [List.getElem?_eq_getElem hlt]
        constructor
        · intro hcontr
          exact absurd hcontr (by simp)
        · intro hcase
          omega
      · rw [List.getElem?_eq_none (by omega)]
        constructor
        · intro _
          left
          omega
        · intro _
          rfl
    · rw [if_neg h0]
      by_cases h1 : (0 : Int) ≤ (positions.length : Int) + (index - 1)
      · rw [if_pos h1]
        have hlt : (((positions.length : Int) + (index - 1)).toNat) <
            positions.length := by omega
        rw [List.getElem?_eq_getElem hlt]
        constructor
        · intro hcontr
          exact absurd hcontr (by simp)
        · intro hcase
          omega
      · rw [if_neg h1]
        constructor
        · intro _
          right
          omega
        · intro _
          rfl

/-- Witness for C9 (amended) at a concrete input: index 0 on a 2-exon list
returns the second (last) exon. -/
theorem get_exon_python_indexing_witness :
    _get_exon [(0, 100), (200, 300)] 0 = .ok (200, 300) :=
  (get_exon_python_indexing [(0, 100), (200, 300)] 0).1 (200, 300) rfl

/-- A plus-strand sample row. -/
def rowPlus : Row := { chrom := "chr1", strand := "+", exons := [(0, 100)] }

/-- A minus-strand sample row with two exons. -/
def rowMinus : Row :=
  { chrom := "chr2", strand := "-", exons := [(0, 100), (200, 300)] }

/-- A fully-populated sample read-through specification with the canonical
(end, start) sides. -/
def specFull : Spec :=
  { separator := some "->"
    gene1 := some "FOO"
    gene2 := some "BAR"
    feature1 := some ("exon", 1)
    feature2 := some ("exon", 1)
    side1 := some "end"
    side2 := some "start"
    bases1 := some (.num 20)
    bases2 := some (.num 30) }

/-- A fully-populated sample read-through specification whose sides are NOT
(end, start). -/
def specMismatch : Spec :=
  { specFull with side1 := some "start", side2 := some "start" }

/-- C2: a successful flag computation sets the side-1 reverse-complement
flag exactly for (start, +) and (end, -), and the side-2 flag exactly for
(start, -) and (end, +). -/
theorem rev_comp_flags_truth_table (s : Spec) (row_1 row_2 : Row)
    (sd1 sd2 : String) (fl : Bool × Bool)
    (h1 : s.side1 = some sd1) (h2 : s.side2 = some sd2)
    (h : _get_rev_comp_flags s row_1 row_2 = some fl) :
    (fl.1 = true ↔
      ((sd1 = "start" ∧ row_1.strand = "+") ∨
        (sd1 = "end" ∧ row_1.strand = "-"))) ∧
    (fl.2 = true ↔
      ((sd2 = "start" ∧ row_2.strand = "-") ∨
        (sd2 = "end" ∧ row_2.strand = "+"))) := by
  rw [_get_rev_comp_flags, h1, h2] at h
  injection h with h
  subst h
  constructor
  · simp [Bool.or_eq_true, Bool.and_eq_true, beq_iff_eq]
  · simp [Bool.or_eq_true, Bool.and_eq_true, beq_iff_eq]

/-- Witness for C2 at a concrete input: sides (end, start) on strands
(+, -) give flags (false, true). -/
theorem rev_comp_flags_truth_table_witness :
    (((false, true) : Bool × Bool).1 = true ↔
      (("end" = "start" ∧ rowPlus.strand = "+") ∨
        ("end" = "end" ∧ rowPlus.strand = "-"))) ∧
    (((false, true) : Bool × Bool).2 = true ↔
      (("start" = "start" ∧ rowMinus.strand = "-") ∨
        ("start" = "end" ∧ rowMinus.strand = "+"))) :=
  rev_comp_flags_truth_table specFull rowPlus rowMinus "end" "start"
    (false, true) rfl rfl rfl

/-- C10: on a specification carrying all eight side fields,
`_flip_specification` is an involution; missing any of those fields it
fails with `InterfaceError`. -/
theorem flip_specification_involution (s : Spec) :
    (hasFlipFields s = true →
      (_flip_specification s).bind _flip_specification = .ok s) ∧
    (hasFlipFields s = false →
      _flip_specification s = .error .interfaceError) := by
  obtain ⟨sep, g1, g2, f1, f2, sd1, sd2, b1, b2⟩ := s
  cases g1 <;> cases g2 <;> cases f1 <;> cases f2 <;> cases sd1 <;>
    cases sd2 <;> cases b1 <;> cases b2 <;>
    simp [hasFlipFields, _flip_specification, Except.bind]

/-- Witness for C10 at a concrete input: flipping the sample specification
twice restores it. -/
theorem flip_specification_involution_witness :
    (_flip_specification specFull).bind _flip_specification = .ok specFull :=
  (flip_specification_involution specFull).1 rfl

/-- C3: for a read-through specification carrying all eight side fields,
the record component of resolution equals positional resolution of
`(spec, row_1, row_2)` when row 1 is on the plus strand, equals positional
resolution of the flipped specification on `(row_2, row_1)` when row 1 is
on the minus strand, and is an `InterfaceError` for any other strand. -/
theorem read_through_strand_dispatch (s : Spec) (row_1 row_2 : Row)
    (h : hasFlipFields s = true) :
    (row_1.strand = "+" →
      (_read_through_sequence_range s row_1 row_2).2 =
        _positional_sequence_range s row_1 row_2) ∧
    (row_1.strand = "-" →
      (_read_through_sequence_range s row_1 row_2).2 =
        _positional_sequence_range
          { s with gene1 := s.gene2, gene2 := s.gene1,
                   feature1 := s.feature2, feature2 := s.feature1,
                   side1 := s.side2, side2 := s.side1,
                   bases1 := s.bases2, bases2 := s.bases1 } row_2 row_1) ∧
    (row_1.strand ≠ "+" → row_1.strand ≠ "-" →
      (_read_through_sequence_range s row_1 row_2).2 =
        .error .interfaceError) := by
  obtain ⟨sep, g1, g2, f1, f2, sd1, sd2, b1, b2⟩ := s
  cases g1 <;> cases g2 <;> cases f1 <;> cases f2 <;> cases sd1 <;>
    cases sd2 <;> cases b1 <;> cases b2 <;>
    simp [hasFlipFields, Option.isSome] at h
  refine ⟨?_, ?_, ?_⟩
  · intro hstr
    simp [_read_through_sequence_range, _check_read_through_spec,
      _read_through_dispatch, hstr]
  · intro hstr
    simp [_read_through_sequence_range, _check_read_through_spec,
      _read_through_dispatch, _flip_specification, hstr]
  · intro hp hm
    simp [_read_through_sequence_range, _check_read_through_spec,
      _read_through_dispatch, hp, hm]

/-- Witness for C3 at a concrete input: with row 1 on the plus strand, the
sample read-through specification resolves positionally without flipping. -/
theorem read_through_strand_dispatch_witness :
    (_read_through_sequence_range specFull rowPlus rowMinus).2 =
      _positional_sequence_range specFull rowPlus rowMinus :=
  (read_through_strand_dispatch specFull rowPlus rowMinus rfl).1 rfl

/-- C6: a read-through specification whose sides are present but not
(end, start) emits the warning and otherwise leaves the outcome exactly
what the strand dispatch produces — the mismatch itself never fails. -/
theorem read_through_side_mismatch_warns_and_proceeds
    (s : Spec) (row_1 row_2 : Row) (sd1 sd2 : String)
    (h1 : s.side1 = some sd1) (h2 : s.side2 = some sd2)
    (hmis : ¬(sd1 = "end" ∧ sd2 = "start")) :
    _read_through_sequence_range s row_1 row_2 =
      ([.readThroughSideWarning], _read_through_dispatch s row_1 row_2) := by
  have hcond : ¬((sd1 == "end" && sd2 == "start") = true) := by
    simp only [Bool.and_eq_true, beq_iff_eq]
    exact fun hc => hmis hc
  simp only [_read_through_sequence_range, _check_read_through_spec, h1, h2]
  simp [hcond]

/-- Witness for C6 at a concrete input: sides (start, start) warn, and
resolution still produces a full coordinate record. -/
theorem read_through_side_mismatch_warns_and_proceeds_witness :
    _read_through_sequence_range specMismatch rowPlus rowMinus =
        ([.readThroughSideWarning],
          _read_through_dispatch specMismatch rowPlus rowMinus) ∧
      _read_through_dispatch specMismatch rowPlus rowMinus =
        .ok { chromosome1 := "1", start1 := 1, end1 := 20,
              chromosome2 := "2", start2 := 71, end2 := 100,
              rc_side_1 := true, rc_side_2 := true } :=
  ⟨read_through_side_mismatch_warns_and_proceeds specMismatch rowPlus
      rowMinus "start" "start" rfl rfl (by decide),
    rfl⟩

/-- C7: `row['chrom'].lstrip('chr')` strips every leading character drawn
from the set `{c, h, r}`: the chromosome name `hr19`, which does not start
with the prefix `chr`, still loses its first two characters. -/
theorem chromosome_lstrip_strips_char_set :
    _get_chromosomes { chrom := "hr19", strand := "+", exons := [] }
        { chrom := "chr5", strand := "+", exons := [] } = ("19", "5") ∧
      "hr19".toList.take 3 ≠ "chr".toList := by
  constructor
  · rfl
  · decide

/-- Modelled from the spec: the complement of a nucleotide base, used by
`sequence.reverse_complement`, whose module is not under `src/`. -/
def complementBase (c : Char) : Char :=
  if c == 'A' then 'T' else if c == 'T' then 'A'
  else if c == 'C' then 'G' else if c == 'G' then 'C'
  else if c == 'a' then 't' else if c == 't' then 'a'
  else if c == 'c' then 'g' else if c == 'g' then 'c'
  else c

/-- Modelled from the spec: `sequence.reverse_complement`, the
reverse-complement of a nucleotide string (glossary of the spec); the
`sequence` module is not under `src/`. -/
def reverse_complement (s : String) : String :=
  String.mk (s.toList.reverse.map complementBase)

/-- Modelled from the spec: a transcript-like object returned by gene
lookup (§6 of the spec), exposing `plus_strand`, `chromosome`, `name` and
`nucleotide_index(position)`, which either returns an integer or fails
with an out-of-range error carried here as its message string.  The
`annotation`/`transcript` modules are not under `src/`. -/
structure SnpTranscript where
  plus_strand : Bool
  chromosome : String
  name : String
  nucleotide_index : Int → Except String Int

/-- The fields of the partial specification `_parse` builds from a gene
SNP probe statement. -/
structure SnpPartial where
  gene : String
  base : Int
  reference : String
  mutation : String
  bases : Int
  comment : String
deriving DecidableEq, Repr

/-- The full specification a `GeneSnpProbe` is built from: the partial
specification extended with `chromosome`, `transcript` and `index`. -/
structure SnpSpec where
  gene : String
  base : Int
  reference : String
  mutation : String
  bases : Int
  comment : String
  chromosome : String
  transcript : String
  index : Int
deriving DecidableEq, Repr

/-- The mutable state of `GeneSnpProbe.explode`'s loop: the current value of
`partial_spec['mutation']` (mutated in place for minus-strand transcripts),
the `cached_coordinates` set, the probes accumulated so far, and the error
lines printed to `sys.stderr`, each carrying the out-of-range error and the
offending statement. -/
structure SnpExplodeState where
  mutation : String
  cached_coordinates : List (String × Int)
  probes : List SnpSpec
  log : List (String × String)
deriving Repr

/-- One iteration of the `for txt in transcripts` loop of
`GeneSnpProbe.explode`: pick the base (shifted by -2 on the minus strand,
where the mutation is also reverse-complemented in place), then either log
the `OutOfRange` error and move on, or build a probe unless its
`(chromosome, index)` coordinates were already seen. -/
def explodeStep (ps : SnpPartial) (statement : String)
    (st : SnpExplodeState) (txt : SnpTranscript) : SnpExplodeState :=
  let base := if txt.plus_strand then ps.base else ps.base - 2
  let newMutation := if txt.plus_strand then st.mutation
    else reverse_complement st.mutation
  match txt.nucleotide_index base with
  | .error e =>
    { st with mutation := newMutation, log := st.log ++ [(e, statement)] }
  | .ok index =>
    if st.cached_coordinates.contains (txt.chromosome, index) then
      { st with mutation := newMutation }
    else
      { st with
          mutation := newMutation
          cached_coordinates :=
            st.cached_coordinates ++ [(txt.chromosome, index)]
          probes := st.probes ++
            [{ gene := ps.gene, base := ps.base, reference := ps.reference,
               mutation := newMutation, bases := ps.bases, comment := ps.comment,
               chromosome := txt.chromosome, transcript := txt.name,
               index := index }] }

/-- The `for txt in transcripts` loop of `GeneSnpProbe.explode`. -/
def explodeLoop (ps : SnpPartial) (statement : String)
    (st : SnpExplodeState) (transcripts : List SnpTranscript) :
    SnpExplodeState :=
  transcripts.foldl (explodeStep ps statement) st

/-- `GeneSnpProbe.explode(statement, genome_annotation)` after parsing and
gene lookup: run the loop from the freshly parsed partial specification,
with empty cache, probe list and diagnostic stream. -/
def GeneSnpProbe_explode (ps : SnpPartial) (statement : String)
    (transcripts : List SnpTranscript) : SnpExplodeState :=
  explodeLoop ps statement
    { mutation := ps.mutation, cached_coordinates := [], probes := [],
      log := [] } transcripts

/-- C8: when a transcript's `nucleotide_index` call fails with an
out-of-range error, `explode` logs the error (with the statement) to the
diagnostic stream, adds no probe and no cached coordinate for that
transcript, and the loop continues with the remaining transcripts instead
of propagating the failure. -/
theorem explode_logs_and_skips_out_of_range
    (ps : SnpPartial) (statement : String) (st : SnpExplodeState)
    (txt : SnpTranscript) (transcripts : List SnpTranscript) (e : String)
    (h : txt.nucleotide_index
        (if txt.plus_strand then ps.base else ps.base - 2) = .error e) :
    (explodeStep ps statement st txt).probes = st.probes ∧
    (explodeStep ps statement st txt).cached_coordinates =
      st.cached_coordinates ∧
    (explodeStep ps statement st txt).log = st.log ++ [(e, statement)] ∧
    explodeLoop ps statement st (txt :: transcripts) =
      explodeLoop ps statement (explodeStep ps statement st txt)
        transcripts := by
  refine ⟨?_, ?_, ?_, rfl⟩ <;> simp [explodeStep, h]

/-- Witness for C8 at a concrete input: a transcript whose
`nucleotide_index` always fails contributes only a log line, and the next
transcript is still processed. -/
theorem explode_logs_and_skips_out_of_range_witness :
    (explodeStep
          { gene := "FOO", base := 100, reference := "A", mutation := "C",
            bases := 25, comment := "" } "FOO: c.100A>C/25"
          { mutation := "C", cached_coordinates := [], probes := [],
            log := [] }
          { plus_strand := true, chromosome := "1", name := "NM_1",
            nucleotide_index := fun _ =>
              .error "index 100 out of range" }).probes = [] ∧
    (explodeStep
          { gene := "FOO", base := 100, reference := "A", mutation := "C",
            bases := 25, comment := "" } "FOO: c.100A>C/25"
          { mutation := "C", cached_coordinates := [], probes := [],
            log := [] }
          { plus_strand := true, chromosome := "1", name := "NM_1",
            nucleotide_index := fun _ =>
              .error "index 100 out of range" }).cached_coordinates = [] ∧
    (explodeStep
          { gene := "FOO", base := 100, reference := "A", mutation := "C",
            bases := 25, comment := "" } "FOO: c.100A>C/25"
          { mutation := "C", cached_coordinates := [], probes := [],
            log := [] }
          { plus_strand := true, chromosome := "1", name := "NM_1",
            nucleotide_index := fun _ =>
              .error "index 100 out of range" }).log =
      [] ++ [("index 100 out of range", "FOO: c.100A>C/25")] ∧
    explodeLoop
        { gene := "FOO", base := 100, reference := "A", mutation := "C",
          bases := 25, comment := "" } "FOO: c.100A>C/25"
        { mutation := "C", cached_coordinates := [], probes := [],
          log := [] }
        [{ plus_strand := true, chromosome := "1", name := "NM_1",
           nucleotide_index := fun _ => .error "index 100 out of range" },
         { plus_strand := true, chromosome := "1", name := "NM_2",
           nucleotide_index := fun _ => .ok 42 }] =
      explodeLoop
        { gene := "FOO", base := 100, reference := "A", mutation := "C",
          bases := 25, comment := "" } "FOO: c.100A>C/25"
        (explodeStep
          { gene := "FOO", base := 100, reference := "A", mutation := "C",
            bases := 25, comment := "" } "FOO: c.100A>C/25"
          { mutation := "C", cached_coordinates := [], probes := [],
            log := [] }
          { plus_strand := true, chromosome := "1", name := "NM_1",
            nucleotide_index := fun _ =>
              .error "index 100 out of range" })
        [{ plus_strand := true, chromosome := "1", name := "NM_2",
           nucleotide_index := fun _ => .ok 42 }] :=
  explode_logs_and_skips_out_of_range
    { gene := "FOO", base := 100, reference := "A", mutation := "C",
      bases := 25, comment := "" } "FOO: c.100A>C/25"
    { mutation := "C", cached_coordinates := [], probes := [], log := [] }
    { plus_strand := true, chromosome := "1", name := "NM_1",
      nucleotide_index := fun _ => .error "index 100 out of range" }
    [{ plus_strand := true, chromosome := "1", name := "NM_2",
       nucleotide_index := fun _ => .ok 42 }]
    "index 100 out of range" rfl

end ProbeGen
